import Mathlib

/-
Verification of the client-side state machines of xstate-viz:
the source lifecycle machine (src/sourceMachine.ts) and the canvas
drag machine (CanvasContainer). The TypeScript machines are embedded
shallowly: contexts become structures, events and states become
inductives, and each transition/action of the source is translated
into an explicit step function. JavaScript truthiness on nullable
strings is modelled explicitly.
-/

namespace XStateViz

/-- JavaScript truthiness of a nullable string: `Boolean(x)` is false for
`null`/`undefined` and for the empty string. -/
def jsTruthy : Option String → Bool
  | none => false
  | some s => !(s == "")

/-- JavaScript `x || null` on a nullable string: `null` when `x` is falsy. -/
def jsOrNull (x : Option String) : Option String :=
  if jsTruthy x then x else none

/-- JavaScript `String.prototype.endsWith`, expressed on the character data. -/
def jsEndsWith (s p : String) : Bool := decide (p.data <:+ s.data)

/-- JavaScript template interpolation of a nullable string: `null` renders as
the text "null". -/
def jsShow : Option String → String
  | some s => s
  | none => "null"

/-- The `SourceProvider` union type of src/types. -/
inductive SourceProvider
  | registry
  | gist
deriving DecidableEq, Repr

/-- The fields of the GraphQL `SourceFileFragment` that sourceMachine.ts
reads: `id`, `text`, `owner?.id` and `updatedAt`. -/
structure SourceFileFragment where
  id : String
  text : String
  ownerId : Option String
  updatedAt : String
deriving DecidableEq, Repr

/-- The context of `sourceModel` (the spawned `notifRef` actor reference is
represented by the broadcast effects below instead of a field). -/
structure SourceContext where
  sourceID : Option String
  sourceProvider : Option SourceProvider
  sourceRawContent : Option String
  sourceRegistryData : Option SourceFileFragment
  loggedInUserId : Option String
  desiredMachineName : Option String
deriving DecidableEq, Repr

/-- `sourceModel.initialContext`: every field starts out null. -/
def initialContext : SourceContext :=
  { sourceID := none
    sourceProvider := none
    sourceRawContent := none
    sourceRegistryData := none
    loggedInUserId := none
    desiredMachineName := none }

/-- The events of `sourceModel` that the verified transitions consume. -/
inductive SourceEvent
  | SAVE
  | FORK
  | CODE_UPDATED (code : String) (sourceID : Option String)
  | LOGGED_IN_USER_ID_UPDATED (id : Option String)
  | MACHINE_ID_CHANGED (id : String)
deriving DecidableEq, Repr

/-- The resting and halting state configurations of the source machine,
flattened. Transient `always` states are resolved eagerly by the step
functions, so only `checking_if_user_owns_source` among them appears here
(as the target of `LOGGED_IN_USER_ID_UPDATED`, resolved immediately). -/
inductive SourceState
  | legacy_redirecting
  | loading_content
  | checking_if_user_owns_source
  | user_owns_this_source
  | user_does_not_own_this_source
  | source_error
  | no_source_has_cached_source
  | no_source_no_cached_source
  | creating_showingNameModal
  | creating_pendingSave
  | updating
deriving DecidableEq, Repr

/-- Severity of a notification broadcast to the notification actor. -/
inductive Severity
  | success
  | error
deriving DecidableEq, Repr

/-- Observable side effects emitted by actions of the source machine. -/
inductive Effect
  | sendParentLoggedOutUserAttemptedRestrictedAction
  | broadcast (message : String) (severity : Severity)
  | forwardToCodeCacheMachine
  | forwardToConfirmBeforeLeavingMachine
  | cacheRemove (sourceID : Option String)
  | routerReplace (url : String)
  | redirectToNewUrlFromLegacyUrl
deriving DecidableEq, Repr

/-- The `addForkOfToDesiredName` action: a falsy (null or empty) name, or one
already ending in "(forked)", is left unchanged; otherwise " (forked)" is
appended. -/
def addForkOfToDesiredName (desiredMachineName : Option String) : Option String :=
  match desiredMachineName with
  | none => none
  | some s =>
    if s == "" || jsEndsWith s ("(forked)") then some s
    else some (s ++ (" (forked)"))

/-- `getInvocations`: for `isEmbedded = false` it returns the two-element
invocation list; for `isEmbedded = true` the `else` arm is a bare expression
statement (`else [];`) whose array is discarded, so the function returns
`undefined`, modelled as `none`. -/
def getInvocations (isEmbedded : Bool) : Option (List String) :=
  if !isEmbedded then some [("codeCacheMachine"), ("confirmBeforeLeavingMachine")]
  else none

/-- The guard of `checking_if_user_owns_source`: false unless both
`sourceRegistryData?.owner?.id` and `loggedInUserId` are truthy and equal. -/
def ownsSource (ctx : SourceContext) : Bool :=
  let ownerId := ctx.sourceRegistryData.bind (fun d => d.ownerId)
  if !(jsTruthy ownerId) || !(jsTruthy ctx.loggedInUserId) then false
  else ownerId == ctx.loggedInUserId

/-- Resolution of the transient `checking_if_user_owns_source` state via its
two `always` transitions. -/
def resolveOwnership (ctx : SourceContext) : SourceState :=
  if ownsSource ctx then .user_owns_this_source else .user_does_not_own_this_source

/-- Membership in the `source_loaded` compound state. -/
def inSourceLoaded : SourceState → Bool
  | .checking_if_user_owns_source => true
  | .user_owns_this_source => true
  | .user_does_not_own_this_source => true
  | _ => false

/-- Membership in the `no_source` compound state. -/
def inNoSource : SourceState → Bool
  | .no_source_has_cached_source => true
  | .no_source_no_cached_source => true
  | _ => false

/-- Membership in the `with_source` compound state. -/
def inWithSource (st : SourceState) : Bool :=
  st == .loading_content || st == .source_error || inSourceLoaded st

/-- The `choose` block attached to `CODE_UPDATED`: forward the event to the
code-cache and leave-confirmation machines only when not embedded. -/
def codeUpdateForwards (isEmbedded : Bool) : List Effect :=
  if !isEmbedded then [.forwardToCodeCacheMachine, .forwardToConfirmBeforeLeavingMachine]
  else []

/-- One event-driven transition of the source machine. `authed` is the value
of the `isLoggedIn` guard (`Boolean(params.auth.session())`); `isEmbedded` is
the construction parameter. Transient target states are resolved eagerly. -/
def sourceStep (authed isEmbedded : Bool) (st : SourceState) (ctx : SourceContext) :
    SourceEvent → SourceState × SourceContext × List Effect
  | .CODE_UPDATED code _ =>
    if inSourceLoaded st || inNoSource st then
      (st, { ctx with sourceRawContent := some code }, codeUpdateForwards isEmbedded)
    else (st, ctx, [])
  | .LOGGED_IN_USER_ID_UPDATED id =>
    let ctx' := { ctx with loggedInUserId := id }
    if inSourceLoaded st then (resolveOwnership ctx', ctx', [])
    else (st, ctx', [])
  | .MACHINE_ID_CHANGED id => (st, { ctx with desiredMachineName := some id }, [])
  | .SAVE =>
    match st with
    | .user_owns_this_source =>
      if authed then (.updating, ctx, [])
      else (st, ctx, [.sendParentLoggedOutUserAttemptedRestrictedAction])
    | .user_does_not_own_this_source =>
      if authed then
        (.creating_showingNameModal,
         { ctx with desiredMachineName := addForkOfToDesiredName ctx.desiredMachineName }, [])
      else (st, ctx, [.sendParentLoggedOutUserAttemptedRestrictedAction])
    | .no_source_has_cached_source =>
      if authed then (.creating_showingNameModal, ctx, [])
      else (st, ctx, [.sendParentLoggedOutUserAttemptedRestrictedAction])
    | .no_source_no_cached_source =>
      if authed then (.creating_showingNameModal, ctx, [])
      else (st, ctx, [.sendParentLoggedOutUserAttemptedRestrictedAction])
    | _ => (st, ctx, [])
  | .FORK =>
    if inWithSource st then
      if authed then
        (.creating_showingNameModal,
         { ctx with desiredMachineName := addForkOfToDesiredName ctx.desiredMachineName }, [])
      else (st, ctx, [.sendParentLoggedOutUserAttemptedRestrictedAction])
    else (st, ctx, [])

/-- Deliver a list of events in order, discarding effects. -/
def runSource (authed isEmbedded : Bool) :
    SourceState × SourceContext → List SourceEvent → SourceState × SourceContext
  | p, [] => p
  | (st, ctx), e :: rest =>
    let r := sourceStep authed isEmbedded st ctx e
    runSource authed isEmbedded (r.1, r.2.1) rest

/-- The payload of the last `CODE_UPDATED` event in a list, if any. -/
def lastCodeUpdate : List SourceEvent → Option String
  | [] => none
  | e :: rest =>
    match lastCodeUpdate rest with
    | some c => some c
    | none =>
      match e with
      | .CODE_UPDATED code _ => some code
      | _ => none

/-- Events that keep the machine inside `source_loaded` / `no_source`:
edits, identity updates (which re-trigger the ownership check), and machine
id changes. -/
def interleavable : SourceEvent → Bool
  | .CODE_UPDATED _ _ => true
  | .LOGGED_IN_USER_ID_UPDATED _ => true
  | .MACHINE_ID_CHANGED _ => true
  | _ => false

/-- Resting states of the `source_loaded` and `no_source` compound states. -/
def restingEditable : SourceState → Bool
  | .user_owns_this_source => true
  | .user_does_not_own_this_source => true
  | .no_source_has_cached_source => true
  | .no_source_no_cached_source => true
  | _ => false

/-- The `id` and `gist` entries of the page's query string, as
`URLSearchParams.get` returns them (`none` when absent; a present key with no
value yields `some ""`). -/
structure UrlQueries where
  id : Option String
  gist : Option String
deriving DecidableEq, Repr

/-- The `parseQueries` action: a no-op on the server; otherwise the `gist`
query parameter is checked (for truthiness) before the `id` parameter. -/
def parseQueries (onClientSide : Bool) (queries : UrlQueries) (ctx : SourceContext) :
    SourceContext :=
  if !onClientSide then ctx
  else if jsTruthy queries.gist then
    { ctx with sourceID := queries.gist, sourceProvider := some .gist }
  else if jsTruthy queries.id then
    { ctx with sourceID := queries.id, sourceProvider := some .registry }
  else ctx

/-- The server-rendered initial data (`params.data`), when present. -/
structure SsrData where
  id : String
  text : String
deriving DecidableEq, Repr

/-- The initial context built by `makeSourceMachine`:
`sourceRawContent = params.data?.text || null`, `sourceID = params.data?.id || null`,
`sourceProvider = params.data ? registry : null`. -/
def makeInitialContext (data : Option SsrData) : SourceContext :=
  { initialContext with
    sourceID := jsOrNull (data.map (fun d => d.id))
    sourceProvider := if data.isSome then some .registry else none
    sourceRawContent := jsOrNull (data.map (fun d => d.text)) }

/-- The `getLocalStorageCachedSource` entry action:
`localCache.getSourceRawContent(sourceID, sourceRegistryData?.updatedAt)` is
consulted (here the injected `cacheGet`); a falsy result leaves the context
unchanged, otherwise it overlays `sourceRawContent`. -/
def getLocalStorageCachedSource
    (cacheGet : Option String → Option String → Option String)
    (ctx : SourceContext) : SourceContext :=
  let result := cacheGet ctx.sourceID (ctx.sourceRegistryData.map (fun d => d.updatedAt))
  if !(jsTruthy result) then ctx
  else { ctx with sourceRawContent := result }

/-- Machine start-up: the `checking_if_on_legacy_url` guard (client side with
a truthy `id` query parameter and no server data redirects and halts), then
`checking_initial_data`, then `checking_url` with `parseQueries`, then the
`no_source` local-storage check, resolving every transient `always` state. -/
def initMachine (onClientSide : Bool) (queries : UrlQueries) (data : Option SsrData)
    (cacheGet : Option String → Option String → Option String) :
    SourceState × SourceContext × List Effect :=
  let ctx := makeInitialContext data
  if onClientSide && (jsTruthy queries.id && data.isNone) then
    (.legacy_redirecting, ctx, [.redirectToNewUrlFromLegacyUrl])
  else if jsTruthy ctx.sourceID then (.loading_content, ctx, [])
  else
    let ctx' := parseQueries onClientSide queries ctx
    if jsTruthy ctx'.sourceID then (.loading_content, ctx', [])
    else if jsTruthy (cacheGet ctx'.sourceID (ctx'.sourceRegistryData.map (fun d => d.updatedAt))) then
      (.no_source_has_cached_source, getLocalStorageCachedSource cacheGet ctx', [])
    else (.no_source_no_cached_source, ctx', [])

/-- Modelled from the spec: `redirectToNewUrlFromLegacyUrl` and the
canonical-path page are not under src/. Per the spec the client redirects the
legacy `?id=<id>` form to the canonical path form (so the tracked query
parameters are dropped), and the canonical page load then supplies
server-rendered initial data for that id. -/
def legacyRedirectResult (id text : String) : UrlQueries × Option SsrData :=
  ({ id := none, gist := none }, some { id := id, text := text })

/-- Outcome of the registry `getSourceFile` query: either `gQuery` resolves
(with a possibly missing `result.data?.getSourceFile`) or the transport
rejects. -/
inductive RegistryResponse
  | ok (getSourceFile : Option SourceFileFragment)
  | transportFailure (message : String)
deriving DecidableEq, Repr

/-- Outcome of the gist fetch: HTTP 404, a successful raw-source fetch, or a
transport rejection. -/
inductive GistResponse
  | notFound404
  | ok (rawSource : String)
  | transportFailure (message : String)
deriving DecidableEq, Repr

/-- The errors `loadSourceContent` can reject with: the dedicated
`NotFoundError` subclass or a plain `Error`. -/
inductive SourceError
  | notFoundError (message : String)
  | genericError (message : String)
deriving DecidableEq, Repr

/-- Result of the `loadSourceContent` service: an event sent back to the
machine, or a rejection routed to `onError: 'source_error'`. -/
inductive LoadOutcome
  | loadedFromGist (rawSource : String)
  | loadedFromRegistry (data : SourceFileFragment)
  | failed (err : SourceError)
deriving DecidableEq, Repr

/-- The `loadSourceContent` service, branching on `sourceProvider`: a gist
404 and a registry record reported missing raise `NotFoundError`; transport
rejections pass through as generic errors; a null provider hits the
`default:` throw. -/
def loadSourceContent (sourceProvider : Option SourceProvider)
    (registryResponse : RegistryResponse) (gistResponse : GistResponse) : LoadOutcome :=
  match sourceProvider with
  | some .gist =>
    match gistResponse with
    | .notFound404 => .failed (.notFoundError ("Gist not found"))
    | .ok raw => .loadedFromGist raw
    | .transportFailure m => .failed (.genericError m)
  | some .registry =>
    match registryResponse with
    | .transportFailure m => .failed (.genericError m)
    | .ok none => .failed (.notFoundError ("Source not found in Registry"))
    | .ok (some f) => .loadedFromRegistry f
  | none => .failed (.genericError ("It should be impossible to reach this."))

/-- `(e.data as Error).toString()`: `NotFoundError` overrides `toString` to
return just the message, while a plain `Error` stringifies with its class
name prefixed. -/
def errorToString : SourceError → String
  | .notFoundError m => m
  | .genericError m => "Error: " ++ m

/-- The `onError: 'source_error'` transition together with the entry actions
of `source_error`: broadcast the stringified error, and only for a
`NotFoundError` delete the `id` and `gist` query parameters. -/
def onLoadError (err : SourceError) (queries : UrlQueries) :
    SourceState × List Effect × UrlQueries :=
  (.source_error,
   [.broadcast (errorToString err) .error],
   match err with
   | .notFoundError _ => { id := none, gist := none }
   | .genericError _ => queries)

/-- The `onDone` transition of `creating.pendingSave` (with
`preserveActionOrder: true` the actions run in listed order): remove the
cache entry for the pre-creation `sourceID`, assign the returned record to
the context, replace the URL with the now-updated `sourceID`, broadcast
success, and enter `user_owns_this_source` (running the `source_loaded`
entry overlay on the way in). -/
def onCreateSourceFileDone
    (cacheGet : Option String → Option String → Option String)
    (ctx : SourceContext) (data : SourceFileFragment) :
    SourceState × SourceContext × List Effect :=
  let eff1 := Effect.cacheRemove ctx.sourceID
  let ctx1 := { ctx with
    sourceID := some data.id
    sourceProvider := some SourceProvider.registry
    sourceRegistryData := some data }
  let eff2 := Effect.routerReplace ("/" ++ jsShow ctx1.sourceID)
  let eff3 := Effect.broadcast ("New file saved successfully!") Severity.success
  (.user_owns_this_source, getLocalStorageCachedSource cacheGet ctx1, [eff1, eff2, eff3])

/-- A point on the canvas, as used by the drag machine. -/
structure Point where
  x : Int
  y : Int
deriving DecidableEq, Repr

/-- The context of `dragModel` (the `embed` field is represented by starting
the machine in `in_embedded_mode` or `released`). -/
structure DragContext where
  startPoint : Point
  dragPoint : Point
  dx : Int
  dy : Int
deriving DecidableEq, Repr

/-- `dragModel.initialContext`. -/
def dragInitialContext : DragContext :=
  { startPoint := { x := 0, y := 0 }
    dragPoint := { x := 0, y := 0 }
    dx := 0
    dy := 0 }

/-- The resting state configurations of the drag machine, flattened
(`checking_embedded_mode` is transient). -/
inductive DragState
  | in_embedded_mode
  | released
  | locked_idle
  | locked_grabbed
  | locked_dragging
deriving DecidableEq, Repr

/-- The events of `dragModel`. -/
inductive DragEvent
  | LOCK
  | RELEASE
  | GRAB (point : Point)
  | DRAG (point : Point)
  | UNGRAB
deriving DecidableEq, Repr

/-- The entry assign of the `dragging` state: store the new point and compute
the delta as previous drag point minus new point (each assigner reads the
pre-assign context). -/
def draggingEntryAssign (ctx : DragContext) (point : Point) : DragContext :=
  { ctx with
    dragPoint := point
    dx := ctx.dragPoint.x - point.x
    dy := ctx.dragPoint.y - point.y }

/-- One transition of the drag machine. `RELEASE` is handled by the `locked`
compound state; unhandled events are discarded. -/
def dragStep : DragState → DragContext → DragEvent → DragState × DragContext
  | .released, ctx, .LOCK => (.locked_idle, ctx)
  | .locked_idle, ctx, .RELEASE => (.released, ctx)
  | .locked_grabbed, ctx, .RELEASE => (.released, ctx)
  | .locked_dragging, ctx, .RELEASE => (.released, ctx)
  | .locked_idle, ctx, .GRAB point =>
    (.locked_grabbed, { ctx with startPoint := point, dragPoint := point })
  | .locked_grabbed, ctx, .DRAG point => (.locked_dragging, draggingEntryAssign ctx point)
  | .locked_grabbed, ctx, .UNGRAB => (.locked_idle, ctx)
  | .locked_dragging, ctx, .DRAG point => (.locked_dragging, draggingEntryAssign ctx point)
  | .locked_dragging, ctx, .UNGRAB => (.locked_idle, ctx)
  | st, ctx, _ => (st, ctx)

/-- The parts of a DOM keyboard event the listeners read: whether
`isTextInputLikeElement(e.target)` holds, and `e.code`. -/
structure KeyboardEventModel where
  targetIsTextInputLikeElement : Bool
  code : String
deriving DecidableEq, Repr

/-- The `keydownListener` installed by `invokeDetectLock`: returns early on a
text-input-like target, otherwise a Space keydown sends LOCK. -/
def keydownListener (e : KeyboardEventModel) : Option DragEvent :=
  if e.targetIsTextInputLikeElement then none
  else if e.code == "Space" then some .LOCK
  else none

/-- The `keyupListener` installed by `invokeDetectRelease`: a Space keyup
sends RELEASE; the listener never inspects the event target. -/
def keyupListener (e : KeyboardEventModel) : Option DragEvent :=
  if e.code == "Space" then some .RELEASE
  else none

/-- Appending " (forked)" always produces a name that ends with "(forked)". -/
theorem jsEndsWith_append_forked (s : String) :
    jsEndsWith (s ++ (" (forked)")) ("(forked)") = true := by
  simp only [jsEndsWith, String.data_append, decide_eq_true_eq]
  have h : ("(forked)").data <:+ (" (forked)").data := by decide
  exact h.trans (List.suffix_append _ _)

/-- Claim C2: the action `addForkOfToDesiredName`, applied when an
authenticated user sends SAVE in `user_does_not_own_this_source` (or FORK in
`with_source`), maps "Foo" to "Foo (forked)" and is idempotent: a name
already ending in "(forked)", a null name and an empty name are left
unchanged, so repeated forking never yields "Foo (forked) (forked)". -/
theorem C2_addForkOfToDesiredName :
    addForkOfToDesiredName (some ("Foo")) = some ("Foo (forked)")
    ∧ (∀ s : String, jsEndsWith s ("(forked)") = true →
        addForkOfToDesiredName (some s) = some s)
    ∧ addForkOfToDesiredName none = none
    ∧ addForkOfToDesiredName (some ("")) = some ("")
    ∧ (∀ n : Option String,
        addForkOfToDesiredName (addForkOfToDesiredName n) = addForkOfToDesiredName n)
    ∧ (∀ (ctx : SourceContext) (emb : Bool),
        sourceStep true emb .user_does_not_own_this_source ctx .SAVE =
          (.creating_showingNameModal,
           { ctx with desiredMachineName := addForkOfToDesiredName ctx.desiredMachineName },
           []))
    ∧ (∀ (ctx : SourceContext) (emb : Bool) (st : SourceState),
        inWithSource st = true →
        sourceStep true emb st ctx .FORK =
          (.creating_showingNameModal,
           { ctx with desiredMachineName := addForkOfToDesiredName ctx.desiredMachineName },
           [])) := by
  refine ⟨by decide, ?_, rfl, by decide, ?_, ?_, ?_⟩
  · intro s h
    simp [addForkOfToDesiredName, h]
  · intro n
    match n with
    | none => rfl
    | some s =>
      by_cases h : (s == "" || jsEndsWith s ("(forked)")) = true
      · simp [addForkOfToDesiredName, h]
      · simp only [addForkOfToDesiredName, h]
        simp [jsEndsWith_append_forked s]
  · intro ctx emb
    rfl
  · intro ctx emb st h
    cases st <;> simp_all [inWithSource, inSourceLoaded, sourceStep]

/-- Witness for C2 at concrete inputs: "Foo (forked)" is left unchanged, and
an authenticated FORK in `loading_content` applies the action. -/
theorem C2_witness :
    addForkOfToDesiredName (some ("Foo (forked)")) = some ("Foo (forked)")
    ∧ sourceStep true false .loading_content initialContext .FORK =
        (.creating_showingNameModal,
         { initialContext with
           desiredMachineName := addForkOfToDesiredName initialContext.desiredMachineName },
         []) :=
  ⟨C2_addForkOfToDesiredName.2.1 ("Foo (forked)") (by decide),
   C2_addForkOfToDesiredName.2.2.2.2.2.2 initialContext false .loading_content (by decide)⟩

/-- Claim C3: a registry load whose gateway reports a missing record (and a
gist load answered with HTTP 404) fails with `NotFoundError`, moving the
machine to `source_error`, broadcasting the message and deleting both the
`id` and `gist` query parameters; any generic transport failure also lands in
`source_error` with a broadcast but leaves the query parameters unchanged. -/
theorem C3_notFound_strips_queries :
    (∀ (queries : UrlQueries) (gistResponse : GistResponse),
      loadSourceContent (some .registry) (.ok none) gistResponse =
        .failed (.notFoundError ("Source not found in Registry"))
      ∧ onLoadError (.notFoundError ("Source not found in Registry")) queries =
          (.source_error,
           [.broadcast ("Source not found in Registry") .error],
           { id := none, gist := none }))
    ∧ (∀ (queries : UrlQueries) (registryResponse : RegistryResponse),
      loadSourceContent (some .gist) registryResponse .notFound404 =
        .failed (.notFoundError ("Gist not found"))
      ∧ onLoadError (.notFoundError ("Gist not found")) queries =
          (.source_error,
           [.broadcast ("Gist not found") .error],
           { id := none, gist := none }))
    ∧ (∀ (queries : UrlQueries) (m : String),
      loadSourceContent (some .registry) (.transportFailure m) .notFound404 =
        .failed (.genericError m)
      ∧ loadSourceContent (some .gist) (.ok none) (.transportFailure m) =
        .failed (.genericError m)
      ∧ onLoadError (.genericError m) queries =
          (.source_error, [.broadcast ("Error: " ++ m) .error], queries)) := by
  refine ⟨fun q g => ⟨rfl, rfl⟩, fun q r => ⟨rfl, rfl⟩, fun q m => ⟨rfl, rfl, rfl⟩⟩

/-- Claim C4: an unauthenticated SAVE in `user_owns_this_source`,
`user_does_not_own_this_source` or either `no_source` sub-state leaves the
state and the whole context unchanged and sends exactly one
LOGGED_OUT_USER_ATTEMPTED_RESTRICTED_ACTION to the parent. -/
theorem C4_unauthenticated_save :
    ∀ (emb : Bool) (ctx : SourceContext) (st : SourceState),
    (st = .user_owns_this_source ∨ st = .user_does_not_own_this_source ∨
     st = .no_source_has_cached_source ∨ st = .no_source_no_cached_source) →
    sourceStep false emb st ctx .SAVE =
      (st, ctx, [.sendParentLoggedOutUserAttemptedRestrictedAction]) := by
  intro emb ctx st h
  rcases h with h | h | h | h <;> subst h <;> rfl

/-- Witness for C4: an unauthenticated SAVE in `user_owns_this_source` from
the initial context. -/
theorem C4_witness :
    sourceStep false false .user_owns_this_source initialContext .SAVE =
      (.user_owns_this_source, initialContext,
       [.sendParentLoggedOutUserAttemptedRestrictedAction]) :=
  C4_unauthenticated_save false initialContext .user_owns_this_source (Or.inl rfl)

/-- Claim C5: in `locked`, GRAB at (10,10) stores (10,10) as both start and
drag point and enters `grabbed`; DRAG to (15,12) enters `dragging` with
dx = 10 - 15 = -5 and dy = 10 - 12 = -2 (previous drag point minus new
point); every further DRAG re-enters `dragging` recomputing the delta
against the stored drag point; UNGRAB returns to `idle`. -/
theorem C5_drag_sequence :
    dragStep .released dragInitialContext .LOCK = (.locked_idle, dragInitialContext)
    ∧ dragStep .locked_idle dragInitialContext (.GRAB { x := 10, y := 10 }) =
        (.locked_grabbed,
         { dragInitialContext with
           startPoint := { x := 10, y := 10 }, dragPoint := { x := 10, y := 10 } })
    ∧ dragStep .locked_grabbed
        { dragInitialContext with
          startPoint := { x := 10, y := 10 }, dragPoint := { x := 10, y := 10 } }
        (.DRAG { x := 15, y := 12 }) =
        (.locked_dragging,
         { startPoint := { x := 10, y := 10 }, dragPoint := { x := 15, y := 12 },
           dx := -5, dy := -2 })
    ∧ (∀ (ctx : DragContext) (p : Point),
        dragStep .locked_dragging ctx (.DRAG p) =
          (.locked_dragging,
           { ctx with
             dragPoint := p
             dx := ctx.dragPoint.x - p.x
             dy := ctx.dragPoint.y - p.y }))
    ∧ dragStep .locked_dragging
        { startPoint := { x := 10, y := 10 }, dragPoint := { x := 15, y := 12 },
          dx := -5, dy := -2 } .UNGRAB =
        (.locked_idle,
         { startPoint := { x := 10, y := 10 }, dragPoint := { x := 15, y := 12 },
           dx := -5, dy := -2 }) := by
  refine ⟨rfl, rfl, by decide, fun ctx p => rfl, rfl⟩

/-- Claim C6: when `createSourceFile` resolves in `creating.pendingSave`, the
machine removes the cache entry under the pre-creation `sourceID`, assigns
the returned record's id and body to `sourceID`/`sourceRegistryData` with
provider `registry`, replaces the URL with the new id, broadcasts a success
notification — in that order — and lands in
`with_source.source_loaded.user_owns_this_source`. -/
theorem C6_create_success :
    ∀ (cacheGet : Option String → Option String → Option String)
      (ctx : SourceContext) (data : SourceFileFragment),
    (onCreateSourceFileDone cacheGet ctx data).1 = .user_owns_this_source
    ∧ (onCreateSourceFileDone cacheGet ctx data).2.2 =
        [.cacheRemove ctx.sourceID,
         .routerReplace ("/" ++ data.id),
         .broadcast ("New file saved successfully!") .success]
    ∧ (onCreateSourceFileDone cacheGet ctx data).2.1.sourceID = some data.id
    ∧ (onCreateSourceFileDone cacheGet ctx data).2.1.sourceProvider = some .registry
    ∧ (onCreateSourceFileDone cacheGet ctx data).2.1.sourceRegistryData = some data := by
  intro cacheGet ctx data
  refine ⟨rfl, rfl, ?_, ?_, ?_⟩ <;>
    · simp only [onCreateSourceFileDone, getLocalStorageCachedSource]
      split <;> rfl

/-- Claim C7: starting on the client with `?id=abc123` and no server data,
the machine takes the redirecting branch of `checking_if_on_legacy_url`
exactly once (emitting the redirect effect and halting); the post-redirect
canonical-path load (modelled from the spec) then resolves through
`with_source / loading_content` with provider `registry` and id "abc123",
emitting no further redirect. -/
theorem C7_legacy_url_redirect :
    ∀ (cacheGet : Option String → Option String → Option String) (text : String),
    (initMachine true { id := some ("abc123"), gist := none } none cacheGet).1 =
      .legacy_redirecting
    ∧ (initMachine true { id := some ("abc123"), gist := none } none cacheGet).2.2 =
        [.redirectToNewUrlFromLegacyUrl]
    ∧ (initMachine true (legacyRedirectResult ("abc123") text).1
        (legacyRedirectResult ("abc123") text).2 cacheGet).1 = .loading_content
    ∧ (initMachine true (legacyRedirectResult ("abc123") text).1
        (legacyRedirectResult ("abc123") text).2 cacheGet).2.1.sourceProvider =
        some .registry
    ∧ (initMachine true (legacyRedirectResult ("abc123") text).1
        (legacyRedirectResult ("abc123") text).2 cacheGet).2.1.sourceID =
        some ("abc123")
    ∧ (initMachine true (legacyRedirectResult ("abc123") text).1
        (legacyRedirectResult ("abc123") text).2 cacheGet).2.2 = [] := by
  intro cacheGet text
  refine ⟨?_, ?_, ?_, ?_, ?_, ?_⟩ <;>
    simp [initMachine, makeInitialContext, legacyRedirectResult, initialContext,
      jsTruthy, jsOrNull]

/-- Claim C8 fails on the code: `keyupListener` never inspects the event
target, so a Space keyup whose target is a text-input-like element still
sends RELEASE, and `locked` does not stay locked. -/
theorem C8_counterexample :
    keyupListener { targetIsTextInputLikeElement := true, code := "Space" } =
      some DragEvent.RELEASE
    ∧ dragStep .locked_idle dragInitialContext .RELEASE =
        (.released, dragInitialContext) := by
  exact ⟨rfl, rfl⟩

/-- Claim C8 as amended: the keydown listener ignores every event whose
target is text-input-like (so such a Space keydown never sends LOCK and
`released` stays released), but the keyup listener does not inspect the
target: every Space keyup sends RELEASE, regardless of the target. -/
theorem C8_keyboard_listeners :
    (∀ e : KeyboardEventModel,
      e.targetIsTextInputLikeElement = true → keydownListener e = none)
    ∧ (∀ e : KeyboardEventModel,
      e.code = "Space" → keyupListener e = some .RELEASE) := by
  constructor
  · intro e h
    simp [keydownListener, h]
  · intro e h
    simp [keyupListener, h]

/-- Witness for the amended C8 at concrete keyboard events. -/
theorem C8_witness :
    keydownListener { targetIsTextInputLikeElement := true, code := "Space" } = none
    ∧ keyupListener { targetIsTextInputLikeElement := false, code := "Space" } =
        some .RELEASE :=
  ⟨C8_keyboard_listeners.1 { targetIsTextInputLikeElement := true, code := "Space" } rfl,
   C8_keyboard_listeners.2 { targetIsTextInputLikeElement := false, code := "Space" } rfl⟩

/-- Claim C9: `getInvocations` returns the two-element invocation list
exactly when `isEmbedded = false` and no list at all (`undefined`, not an
empty array) when `isEmbedded = true`; a CODE_UPDATED event in
`source_loaded` or `no_source` is forwarded to the code-cache and
leave-confirmation machines exactly when `isEmbedded = false`. -/
theorem C9_embedded_invocations :
    getInvocations false = some [("codeCacheMachine"), ("confirmBeforeLeavingMachine")]
    ∧ getInvocations true = none
    ∧ (∀ emb : Bool, (getInvocations emb).isSome = !emb)
    ∧ (∀ (authed emb : Bool) (st : SourceState) (ctx : SourceContext)
         (code : String) (sid : Option String),
        (inSourceLoaded st || inNoSource st) = true →
        (sourceStep authed emb st ctx (.CODE_UPDATED code sid)).2.2 =
          if emb then []
          else [.forwardToCodeCacheMachine, .forwardToConfirmBeforeLeavingMachine]) := by
  refine ⟨rfl, rfl, fun emb => by cases emb <;> rfl, ?_⟩
  intro authed emb st ctx code sid h
  cases emb <;> simp [sourceStep, h, codeUpdateForwards]

/-- Witness for C9: a CODE_UPDATED in `user_owns_this_source`, non-embedded,
forwards to both auxiliary machines. -/
theorem C9_witness :
    (sourceStep true false .user_owns_this_source initialContext
      (.CODE_UPDATED ("x") none)).2.2 =
      [.forwardToCodeCacheMachine, .forwardToConfirmBeforeLeavingMachine] :=
  C9_embedded_invocations.2.2.2 true false .user_owns_this_source initialContext
    ("x") none (by decide)

/-- Claim C10 fails on the code: for a URL carrying both a `gist` parameter
and an `id` parameter, the gist branch is only taken when the gist value is
truthy; with `?gist=&id=abc` (empty gist value) `parseQueries` falls through
to the id branch and sets provider `registry`, not `gist`. -/
theorem C10_counterexample :
    (parseQueries true { id := some ("abc"), gist := some ("") } initialContext).sourceProvider
      = some SourceProvider.registry
    ∧ ¬ ((parseQueries true { id := some ("abc"), gist := some ("") } initialContext).sourceProvider
      = some SourceProvider.gist) := by
  exact ⟨rfl, by decide⟩

/-- Claim C10 as amended: for every URL whose query string contains a `gist`
parameter with a non-empty value, `parseQueries` sets provider `gist` and
`sourceID` to that value, ignoring any `id` parameter entirely — the gist
branch is checked before the id branch. -/
theorem C10_gist_before_id :
    ∀ (queries : UrlQueries) (ctx : SourceContext) (g : String),
    queries.gist = some g → g ≠ "" →
    parseQueries true queries ctx =
      { ctx with sourceID := some g, sourceProvider := some .gist } := by
  intro queries ctx g hg hne
  simp [parseQueries, jsTruthy, hg, hne]

/-- Witness for the amended C10: `?gist=g1&id=abc` resolves to the gist
provider with id "g1". -/
theorem C10_witness :
    parseQueries true { id := some ("abc"), gist := some ("g1") } initialContext =
      { initialContext with sourceID := some ("g1"), sourceProvider := some .gist } :=
  C10_gist_before_id { id := some ("abc"), gist := some ("g1") } initialContext
    ("g1") rfl (by decide)

/-- A resting editable state lies in `source_loaded` or `no_source`. -/
theorem restingEditable_in (st : SourceState) (h : restingEditable st = true) :
    (inSourceLoaded st || inNoSource st) = true := by
  cases st <;> simp_all [restingEditable, inSourceLoaded, inNoSource]

/-- The interleavable events keep the machine in the resting editable
states: edits stay put, identity updates re-resolve the ownership check to
`user_owns_this_source` or `user_does_not_own_this_source`. -/
theorem sourceStep_preserves_resting (authed emb : Bool) (st : SourceState)
    (ctx : SourceContext) (e : SourceEvent) (hst : restingEditable st = true)
    (he : interleavable e = true) :
    restingEditable (sourceStep authed emb st ctx e).1 = true := by
  cases e with
  | CODE_UPDATED code sid => simp only [sourceStep]; split <;> exact hst
  | LOGGED_IN_USER_ID_UPDATED id =>
    simp only [sourceStep]
    split
    · simp only [resolveOwnership]; split <;> rfl
    · exact hst
  | MACHINE_ID_CHANGED id => exact hst
  | SAVE => simp [interleavable] at he
  | FORK => simp [interleavable] at he

/-- Interleavable events other than CODE_UPDATED never touch
`sourceRawContent`, in any state. -/
theorem sourceStep_preserves_rawContent (authed emb : Bool) (st : SourceState)
    (ctx : SourceContext) (e : SourceEvent) (he : interleavable e = true)
    (hnc : ∀ code sid, e ≠ .CODE_UPDATED code sid) :
    (sourceStep authed emb st ctx e).2.1.sourceRawContent = ctx.sourceRawContent := by
  cases e with
  | CODE_UPDATED code sid => exact absurd rfl (hnc code sid)
  | LOGGED_IN_USER_ID_UPDATED id => simp only [sourceStep]; split <;> rfl
  | MACHINE_ID_CHANGED id => rfl
  | SAVE => simp [interleavable] at he
  | FORK => simp [interleavable] at he

/-- In a resting editable state, CODE_UPDATED assigns its payload to
`sourceRawContent`. -/
theorem sourceStep_code_updated (authed emb : Bool) (st : SourceState)
    (ctx : SourceContext) (code : String) (sid : Option String)
    (hst : restingEditable st = true) :
    (sourceStep authed emb st ctx (.CODE_UPDATED code sid)).2.1.sourceRawContent =
      some code := by
  simp [sourceStep, restingEditable_in st hst]

/-- A run of interleavable events containing no CODE_UPDATED leaves
`sourceRawContent` unchanged. -/
theorem runSource_no_code_preserves_rawContent (authed emb : Bool) :
    ∀ (evs : List SourceEvent) (st : SourceState) (ctx : SourceContext),
    (∀ e ∈ evs, interleavable e = true) →
    lastCodeUpdate evs = none →
    (runSource authed emb (st, ctx) evs).2.sourceRawContent = ctx.sourceRawContent := by
  intro evs
  induction evs with
  | nil => intro st ctx _ _; rfl
  | cons e rest ih =>
    intro st ctx hall hnone
    have hrest : lastCodeUpdate rest = none := by
      cases h : lastCodeUpdate rest with
      | none => rfl
      | some c => simp only [lastCodeUpdate, h] at hnone; exact hnone
    have hne : ∀ code sid, e ≠ .CODE_UPDATED code sid := by
      intro code sid hEq
      subst hEq
      simp only [lastCodeUpdate, hrest] at hnone
      exact Option.noConfusion hnone
    simp only [runSource]
    rw [ih (sourceStep authed emb st ctx e).1 (sourceStep authed emb st ctx e).2.1
      (fun x hx => hall x (List.mem_cons_of_mem _ hx)) hrest]
    exact sourceStep_preserves_rawContent authed emb st ctx e
      (hall e (List.mem_cons_self _ _)) hne

/-- Claim C1: for every sequence of events delivered while the machine rests
in `source_loaded` or `no_source` — edits interleaved with the identity
updates that drive the ownership sub-state transitions — the final
`sourceRawContent` equals the code payload of the last CODE_UPDATED event
delivered. -/
theorem C1_last_edit_wins :
    ∀ (authed emb : Bool) (c : String) (evs : List SourceEvent)
      (st : SourceState) (ctx : SourceContext),
    restingEditable st = true →
    (∀ e ∈ evs, interleavable e = true) →
    lastCodeUpdate evs = some c →
    (runSource authed emb (st, ctx) evs).2.sourceRawContent = some c := by
  intro authed emb c evs
  induction evs with
  | nil => intro st ctx _ _ hlast; simp [lastCodeUpdate] at hlast
  | cons e rest ih =>
    intro st ctx hst hall hlast
    have hE := hall e (List.mem_cons_self _ _)
    have hallRest : ∀ x ∈ rest, interleavable x = true :=
      fun x hx => hall x (List.mem_cons_of_mem _ hx)
    simp only [runSource]
    cases hrest : lastCodeUpdate rest with
    | some c' =>
      have hcc : c' = c := by
        simp only [lastCodeUpdate, hrest] at hlast
        exact Option.some.inj hlast
      subst hcc
      exact ih _ _ (sourceStep_preserves_resting authed emb st ctx e hst hE)
        hallRest hrest
    | none =>
      cases e with
      | CODE_UPDATED code sid =>
        have hcode : code = c := by
          simp only [lastCodeUpdate, hrest] at hlast
          exact Option.some.inj hlast
        subst hcode
        rw [runSource_no_code_preserves_rawContent authed emb rest _ _ hallRest hrest]
        exact sourceStep_code_updated authed emb st ctx code sid hst
      | LOGGED_IN_USER_ID_UPDATED id => simp [lastCodeUpdate, hrest] at hlast
      | MACHINE_ID_CHANGED id => simp [lastCodeUpdate, hrest] at hlast
      | SAVE => simp [lastCodeUpdate, hrest] at hlast
      | FORK => simp [lastCodeUpdate, hrest] at hlast

/-- Witness for C1: two edits with an identity update in between, delivered
in `user_does_not_own_this_source`; the last edit "b" wins. -/
theorem C1_witness :
    (runSource true false (.user_does_not_own_this_source, initialContext)
      [.CODE_UPDATED ("a") none,
       .LOGGED_IN_USER_ID_UPDATED (some ("u")),
       .CODE_UPDATED ("b") none]).2.sourceRawContent = some ("b") :=
  C1_last_edit_wins true false ("b")
    [.CODE_UPDATED ("a") none,
     .LOGGED_IN_USER_ID_UPDATED (some ("u")),
     .CODE_UPDATED ("b") none]
    .user_does_not_own_this_source initialContext (by decide) (by decide) (by decide)

end XStateViz
